import Mathlib

/-!
Verification of the scan-result aggregation model of the accessibility
dashboard (`src/components/AccessibilityScanner.tsx` and the sibling copy of
that component).  The component's data-transformation logic is embedded
shallowly:

* JavaScript numbers are carried in `ℚ` and modelled at two levels of
  fidelity.  The exact-rational idealization (`jsDiv`, `complianceScoreOf`,
  `pageScore`) evaluates every expression exactly; it is used where the
  binary64 computation provably agrees at the concrete inputs a claim
  evaluates, or where only the identity of two formulas is at stake.  The
  bit-accurate model (`fp64round`, `complianceScoreFP`,
  `domainScanResultFP`) rounds each division and multiplication to the
  nearest binary64 value (round to nearest, ties to even) and exhibits
  where the two levels diverge: at half-integer percentages the double
  quotient falls below the tie and `Math.round` goes the other way.
* A JavaScript division whose result is not a finite number is modelled by
  `none` (`jsDiv`); in every use in this file the numerator is a partial sum
  of the denominator, so a zero denominator forces a zero numerator and the
  non-finite value is precisely `NaN` from `0 / 0`.
* `Math.round` on a finite number is `⌊x + 1/2⌋` (ties round toward
  positive infinity), modelled by `mathRound`.
* The React `useState` cell group that `handleScan` reads and writes is
  modelled as an explicit `UIState` record, and the handler's synchronous
  body as a function from that state to a new state plus a list of emitted
  effects (toast notifications and `setTimeout` scheduling).
-/

/-- Severity of a single accessibility finding, the `type` field of the
`AccessibilityIssue` interface (`'error' | 'warning'`). -/
inductive IssueType where
  | error
  | warning
deriving DecidableEq

/-- The `AccessibilityIssue` interface. -/
structure AccessibilityIssue where
  type : IssueType
  code : String
  message : String
  selector : String
  context : String

/-- The `PageResult` interface. -/
structure PageResult where
  url : String
  title : String
  issues : List AccessibilityIssue
  passed : Nat
  failed : Nat
  warnings : Nat
  loadTime : ℚ
  statusCode : Nat

/-- The `ScanResult` interface.  `complianceScore` is the result of a
`Math.round` over a division that can produce `NaN`, hence `Option ℤ`
with `none` standing for `NaN`. -/
structure ScanResult where
  url : String
  timestamp : String
  totalPages : Nat
  pagesScanned : List PageResult
  totalPassed : Nat
  totalFailed : Nat
  totalWarnings : Nat
  scanDuration : ℚ
  complianceScore : Option ℤ

/-- JavaScript `Math.round` on a finite number: round half-up, that is
`⌊x + 1/2⌋` (ties go toward positive infinity). -/
def mathRound (q : ℚ) : ℤ := ⌊q + 1 / 2⌋

/-- JavaScript division `a / b` in the exact-rational idealization: the
quotient is returned exactly rather than rounded to binary64 (the
bit-accurate computation is `fp64round` composed as in `complianceScoreFP`,
which diverges from this idealization at half-integer percentages).  When
the denominator is zero the JavaScript result is not a finite number and is
modelled by `none`; at every call site in this file the numerator is bounded
by the denominator, so that case is exactly `0 / 0`, i.e. `NaN`. -/
def jsDiv (a b : ℚ) : Option ℚ := if b = 0 then none else some (a / b)

/-- The remediation lookup `getFixExample` (lines 45-60 of the component):
a `switch` on `issue.code`, sequentially compared against five known rule
codes, with a `default` branch returning a fallback string. -/
def getFixExample (issue : AccessibilityIssue) : String :=
  if issue.code = "WCAG2AA.Principle1.Guideline1_1.1_1_1.H37" then
    "<img src=\"hero-image.jpg\" alt=\"Hero image showing our main product\" class=\"hero-img\">"
  else if issue.code = "WCAG2AA.Principle2.Guideline2_4.2_4_2.H25.1.NoTitleEl" then
    "<html><head><title>About Us - Company Name</title>...</head>"
  else if issue.code = "WCAG2AA.Principle1.Guideline1_3.1_3_1.H43.IncorrectAttr" then
    "<th scope=\"col\">Product Name</th>"
  else if issue.code = "WCAG2AA.Principle4.Guideline4_1.4_1_2.H91.Button.Name" then
    "<button class=\"submit-btn\" aria-label=\"Submit contact form\">Submit</button>"
  else if issue.code = "WCAG2AA.Principle1.Guideline1_4.1_4_3.G18.Fail" then
    "<span class=\"text-gray-600\">Secondary text</span> <!-- Use darker color for better contrast -->"
  else
    "<!-- Please refer to WCAG guidelines for specific fix recommendations -->"

/-- The finite enumerated rule-code-to-remediation table, stated the way the
specification describes the lookup: an association list over the closed set
of known codes. -/
def knownFixes : List (String × String) :=
  [("WCAG2AA.Principle1.Guideline1_1.1_1_1.H37",
    "<img src=\"hero-image.jpg\" alt=\"Hero image showing our main product\" class=\"hero-img\">"),
   ("WCAG2AA.Principle2.Guideline2_4.2_4_2.H25.1.NoTitleEl",
    "<html><head><title>About Us - Company Name</title>...</head>"),
   ("WCAG2AA.Principle1.Guideline1_3.1_3_1.H43.IncorrectAttr",
    "<th scope=\"col\">Product Name</th>"),
   ("WCAG2AA.Principle4.Guideline4_1.4_1_2.H91.Button.Name",
    "<button class=\"submit-btn\" aria-label=\"Submit contact form\">Submit</button>"),
   ("WCAG2AA.Principle1.Guideline1_4.1_4_3.G18.Fail",
    "<span class=\"text-gray-600\">Secondary text</span> <!-- Use darker color for better contrast -->")]

/-- The designated fallback remediation string for unknown rule codes. -/
def fallbackFix : String :=
  "<!-- Please refer to WCAG guidelines for specific fix recommendations -->"

/-- The missing-alt error fixture used throughout the mock data. -/
def issueMissingAlt : AccessibilityIssue :=
  { type := IssueType.error,
    code := "WCAG2AA.Principle1.Guideline1_1.1_1_1.H37",
    message := "Img element missing an alt attribute",
    selector := "img[src=\"hero-image.jpg\"]",
    context := "<img src=\"hero-image.jpg\" class=\"hero-img\">" }

/-- The missing-title warning fixture used throughout the mock data. -/
def issueNoTitle : AccessibilityIssue :=
  { type := IssueType.warning,
    code := "WCAG2AA.Principle2.Guideline2_4.2_4_2.H25.1.NoTitleEl",
    message := "Document should have a title element",
    selector := "html",
    context := "<html><head>..." }

/-- The table-header-scope error fixture used throughout the mock data. -/
def issueTableScope : AccessibilityIssue :=
  { type := IssueType.error,
    code := "WCAG2AA.Principle1.Guideline1_3.1_3_1.H43.IncorrectAttr",
    message := "Table headers missing scope attribute",
    selector := "table th",
    context := "<th>Product Name</th>" }

/-- The button-accessible-name error fixture used throughout the mock data. -/
def issueButtonName : AccessibilityIssue :=
  { type := IssueType.error,
    code := "WCAG2AA.Principle4.Guideline4_1.4_1_2.H91.Button.Name",
    message := "Button element must have accessible name",
    selector := "button.submit-btn",
    context := "<button class=\"submit-btn\">Submit</button>" }

/-- The colour-contrast warning fixture used throughout the mock data. -/
def issueContrast : AccessibilityIssue :=
  { type := IssueType.warning,
    code := "WCAG2AA.Principle1.Guideline1_4.1_4_3.G18.Fail",
    message := "Insufficient color contrast",
    selector := ".text-gray-400",
    context := "<span class=\"text-gray-400\">Secondary text</span>" }

/-- The `errorTypes` array of the domain-scan branch of `handleScan`, in
source order. -/
def errorTypes : List AccessibilityIssue :=
  [issueMissingAlt, issueButtonName, issueTableScope]

/-- The `warningTypes` array of the domain-scan branch of `handleScan`, in
source order. -/
def warningTypes : List AccessibilityIssue :=
  [issueNoTitle, issueContrast]

/-- One entry of the `pageTemplates` array of the domain-scan branch. -/
structure PageTemplate where
  path : String
  title : String
  errorRate : ℚ

/-- The draws of `Math.random()` consumed while building one mock page of
the domain-scan branch, made explicit so the generator is a pure function.
`errPick` and `warnPick` are the values of
`Math.floor(Math.random() * array.length)` used to index the issue arrays. -/
structure PageRand where
  rErr : ℚ
  rWarn : ℚ
  errPick : Fin errorTypes.length
  warnPick : Fin warningTypes.length
  rPassed : Fin 20
  rLoad : ℚ
  rStatus1 : ℚ
  rStatus2 : ℚ

/-- The per-page body of `allPageTemplates.slice(0, 60).map(...)` in the
domain-scan branch (lines 158-230 of `AccessibilityScanner.tsx`): push one
random error when `Math.random() < template.errorRate`, one random warning
when `Math.random() < 0.3`, then derive `failed` and `warnings` by
filtering `issues` on the issue type, and draw `passed` from 25 to 44. -/
def mkMockPage (baseUrl : String) (template : PageTemplate) (r : PageRand) : PageResult :=
  let hasErrors := r.rErr < template.errorRate
  let hasWarnings := r.rWarn < 3 / 10
  let issues :=
    (if hasErrors then [errorTypes.get r.errPick] else []) ++
    (if hasWarnings then [warningTypes.get r.warnPick] else [])
  { url := baseUrl ++ template.path,
    title := template.title,
    issues := issues,
    passed := r.rPassed.val + 25,
    failed := (issues.filter (fun i => decide (i.type = IssueType.error))).length,
    warnings := (issues.filter (fun i => decide (i.type = IssueType.warning))).length,
    loadTime := (mathRound ((r.rLoad * 2 + 1 / 2) * 10) : ℚ) / 10,
    statusCode := if r.rStatus1 < 95 / 100 then 200 else if r.rStatus2 < 1 / 2 then 404 else 500 }

/-- The regex replacement `url.replace(/\x2f+$/, '')`: drop the trailing run
of slashes. -/
def stripTrailingSlashes (s : String) : String :=
  String.mk ((s.data.reverse.dropWhile (fun c => c = '/')).reverse)

/-- Helper for `collapseSlashRuns`; the Boolean records whether the previous
character was a slash, so every maximal run of slashes is emitted once. -/
def collapseSlashAux : Bool → List Char → List Char
  | _, [] => []
  | prevSlash, c :: cs =>
    if c = '/' then
      if prevSlash then collapseSlashAux true cs
      else c :: collapseSlashAux true cs
    else c :: collapseSlashAux false cs

/-- The global regex replacement `.replace(/\x2f\x7b2,\x7d/g, '/')`: each
maximal run of two or more slashes becomes a single slash (a run of one is
also left as a single slash, as in the regex). -/
def collapseSlashRuns (s : String) : String :=
  String.mk (collapseSlashAux false s.data)

/-- The hard-coded `mockPages` array of the domain-scan branch of the
sibling component copy (lines 103-193 of the unnamed source file), as a
function of the scanned `url`. -/
def part000MockPages (url : String) : List PageResult :=
  [{ url := url, title := "Home Page", issues := [issueMissingAlt],
     passed := 45, failed := 1, warnings := 0, loadTime := 12 / 10, statusCode := 200 },
   { url := collapseSlashRuns (stripTrailingSlashes url) ++ "/about",
     title := "About Us", issues := [issueNoTitle],
     passed := 32, failed := 0, warnings := 1, loadTime := 8 / 10, statusCode := 200 },
   { url := collapseSlashRuns (stripTrailingSlashes url) ++ "/products",
     title := "Products", issues := [issueTableScope],
     passed := 28, failed := 1, warnings := 0, loadTime := 15 / 10, statusCode := 200 },
   { url := collapseSlashRuns (stripTrailingSlashes url) ++ "/contact",
     title := "Contact Us", issues := [issueButtonName, issueContrast],
     passed := 25, failed := 1, warnings := 1, loadTime := 9 / 10, statusCode := 200 },
   { url := collapseSlashRuns (stripTrailingSlashes url) ++ "/blog",
     title := "Blog", issues := [],
     passed := 38, failed := 0, warnings := 0, loadTime := 11 / 10, statusCode := 200 }]

/-- The site-level compliance-score computation
`Math.round((totalPassed / (totalPassed + totalFailed)) * 100)` of the
domain-scan branch, evaluated in exact rational arithmetic (the binary64
evaluation of the same source line is `complianceScoreFP`).  The division
`0 / 0` yields `NaN` (`none`), which `* 100` and `Math.round` propagate. -/
def complianceScoreOf (totalPassed totalFailed : Nat) : Option ℤ :=
  (jsDiv (totalPassed : ℚ) ((totalPassed : ℚ) + (totalFailed : ℚ))).map
    (fun q => mathRound (q * 100))

/-- The `ScanResult` assembled by the domain-scan branch: `reduce`-sums of
the per-page counters and the compliance score over those sums. -/
def domainScanResult (url timestamp : String) (mockPages : List PageResult)
    (scanDuration : ℚ) : ScanResult :=
  let totalPassed := mockPages.foldl (fun sum page => sum + page.passed) 0
  let totalFailed := mockPages.foldl (fun sum page => sum + page.failed) 0
  let totalWarnings := mockPages.foldl (fun sum page => sum + page.warnings) 0
  let complianceScore := complianceScoreOf totalPassed totalFailed
  { url := url, timestamp := timestamp,
    totalPages := mockPages.length,
    pagesScanned := mockPages,
    totalPassed := totalPassed,
    totalFailed := totalFailed,
    totalWarnings := totalWarnings,
    scanDuration := scanDuration,
    complianceScore := complianceScore }

/-- The hard-coded `singlePage` of the single-page branch of `handleScan`. -/
def singlePageOf (url : String) : PageResult :=
  { url := url, title := "Single Page",
    issues := [issueMissingAlt, issueNoTitle],
    passed := 28, failed := 1, warnings := 1, loadTime := 12 / 10, statusCode := 200 }

/-- The `ScanResult` assembled by the single-page branch, including its own
occurrence of the compliance-score expression
`Math.round((singlePage.passed / (singlePage.passed + singlePage.failed)) * 100)`. -/
def singleScanResult (url timestamp : String) : ScanResult :=
  let singlePage := singlePageOf url
  let complianceScore :=
    (jsDiv (singlePage.passed : ℚ) ((singlePage.passed : ℚ) + (singlePage.failed : ℚ))).map
      (fun q => mathRound (q * 100))
  { url := url, timestamp := timestamp,
    totalPages := 1,
    pagesScanned := [singlePage],
    totalPassed := singlePage.passed,
    totalFailed := singlePage.failed,
    totalWarnings := singlePage.warnings,
    scanDuration := 21 / 10,
    complianceScore := complianceScore }

/-- The per-page score of the report table,
`Math.round((page.passed / (page.passed + page.failed)) * 100)`
(line 483 of the sibling copy, line 554 of `AccessibilityScanner.tsx`). -/
def pageScore (page : PageResult) : Option ℤ :=
  (jsDiv (page.passed : ℚ) ((page.passed : ℚ) + (page.failed : ℚ))).map
    (fun q => mathRound (q * 100))

/-- The compliance-score formula as the specification words it: the integer
percentage of passed over passed plus failed, rounded half-up to the nearest
integer (Mathlib's `round` is exactly round half-up). -/
def specComplianceScore (p f : Nat) : ℤ :=
  round ((100 * (p : ℚ)) / ((p : ℚ) + (f : ℚ)))

/-- The invariant relating a page's counters to its classified issues:
`failedCount` is the number of issues of kind error and `warningCount` the
number of issues of kind warning. -/
def pageCountsInvariant (p : PageResult) : Prop :=
  p.failed = (p.issues.filter (fun i => decide (i.type = IssueType.error))).length ∧
  p.warnings = (p.issues.filter (fun i => decide (i.type = IssueType.warning))).length

/-- The `useState` cells of the component that `handleScan` reads or
writes.  The accessibility-standards toggles are not consulted by the
handler and are omitted. -/
structure UIState where
  url : String
  isScanning : Bool
  scanResult : Option ScanResult
  scanFullDomain : Bool

/-- An observable effect emitted by the synchronous body of `handleScan`:
a toast notification, or the scheduling of the mock scan via `setTimeout`
with the given delay in milliseconds. -/
inductive ScanEffect where
  | toast (title description : String)
  | schedule (delayMs : Nat)

/-- The synchronous body of `handleScan` (lines 76-98 and the branch on
`scanFullDomain`): an empty `url` is falsy and rejected with a toast; a url
the browser's `new URL` constructor cannot parse (that external built-in is
abstracted as the predicate `isValidURL`) is rejected with a toast; otherwise
`isScanning` is set and the mock scan is scheduled (8000 ms for a domain
scan, 2000 ms for a single page).  The completion of the scheduled timeout
is modelled separately by `domainScanResult` and `singleScanResult`. -/
def handleScan (isValidURL : String → Bool) (s : UIState) : UIState × List ScanEffect :=
  if s.url = "" then
    (s, [ScanEffect.toast "URL Required" "Please enter a URL to scan"])
  else if isValidURL s.url = false then
    (s, [ScanEffect.toast "Invalid URL" "Please enter a valid URL (include http:// or https://)"])
  else
    ({ s with isScanning := true },
     [ScanEffect.schedule (if s.scanFullDomain then 8000 else 2000)])

/-- Test fixture: a page with 45 passed checks and 1 failed check. -/
def examplePageA : PageResult :=
  { url := "https://example.com", title := "Home Page", issues := [issueMissingAlt],
    passed := 45, failed := 1, warnings := 0, loadTime := 12 / 10, statusCode := 200 }

/-- Test fixture: a page with 32 passed checks and no failed check. -/
def examplePageB : PageResult :=
  { url := "https://example.com/about", title := "About Us", issues := [issueNoTitle],
    passed := 32, failed := 0, warnings := 1, loadTime := 8 / 10, statusCode := 200 }

/-- Rounding of a rational to the nearest integer with ties to even, the
IEEE-754 default rounding once a value has been scaled into mantissa
position. -/
def roundEven (x : ℚ) : ℤ :=
  if x - ⌊x⌋ < 1 / 2 then ⌊x⌋
  else if 1 / 2 < x - ⌊x⌋ then ⌊x⌋ + 1
  else if ⌊x⌋ % 2 = 0 then ⌊x⌋ else ⌊x⌋ + 1

/-- Rounding of a positive rational in the normal range to the nearest
IEEE-754 binary64 value (round to nearest, ties to even): with
`e = ⌊log₂ q⌋` the representable neighbours of `q` are the multiples of
`2 ^ (e - 52)`, and the 53-bit mantissa is rounded to even on a tie. -/
def fp64round (q : ℚ) : ℚ :=
  (roundEven (q * 2 ^ (52 - Int.log 2 q)) : ℚ) * 2 ^ (Int.log 2 q - 52)

/-- The compliance-score computation as the program's IEEE-754 binary64
arithmetic actually performs it: the integer operands and their sum are
exact at these magnitudes, the quotient and the product are each rounded to
the nearest double, and `Math.round` is specified exactly on the resulting
value (the nearest integral value, ties toward positive infinity).  `none`
again models the `NaN` of `0 / 0`. -/
def complianceScoreFP (totalPassed totalFailed : Nat) : Option ℤ :=
  if ((totalPassed : ℚ) + (totalFailed : ℚ)) = 0 then none
  else
    some (mathRound (fp64round
      (fp64round ((totalPassed : ℚ) / ((totalPassed : ℚ) + (totalFailed : ℚ))) * 100)))

/-- The `ScanResult` of the domain-scan branch with the compliance score
computed in binary64 arithmetic (`complianceScoreFP`); the counter sums
stay in `ℕ`, which the doubles carry exactly at these magnitudes. -/
def domainScanResultFP (url timestamp : String) (mockPages : List PageResult)
    (scanDuration : ℚ) : ScanResult :=
  let totalPassed := mockPages.foldl (fun sum page => sum + page.passed) 0
  let totalFailed := mockPages.foldl (fun sum page => sum + page.failed) 0
  let totalWarnings := mockPages.foldl (fun sum page => sum + page.warnings) 0
  let complianceScore := complianceScoreFP totalPassed totalFailed
  { url := url, timestamp := timestamp,
    totalPages := mockPages.length,
    pagesScanned := mockPages,
    totalPassed := totalPassed,
    totalFailed := totalFailed,
    totalWarnings := totalWarnings,
    scanDuration := scanDuration,
    complianceScore := complianceScore }

/-- Test fixture: a page with 23 passed and 17 failed checks, whose exact
percentage 57.5 sits on a rounding tie that binary64 arithmetic misses. -/
def examplePageC : PageResult :=
  { url := "https://example.com", title := "Home Page", issues := [],
    passed := 23, failed := 17, warnings := 0, loadTime := 12 / 10, statusCode := 200 }

/-- The `reduce`-style left fold with a starting accumulator equals the
accumulator plus the sum of the mapped list. -/
theorem foldl_add_eq_sum (g : PageResult → Nat) :
    ∀ (l : List PageResult) (n : Nat),
      l.foldl (fun sum page => sum + g page) n = n + (l.map g).sum
  | [], n => by simp
  | p :: l, n => by
    simp only [List.foldl_cons, List.map_cons, List.sum_cons]
    rw [foldl_add_eq_sum g l (n + g p)]
    omega

/-- Claim C3: for every sequence of `PageResult`, the aggregated
`ScanResult` satisfies `totalPassed = Σ page.passed`,
`totalFailed = Σ page.failed` and `totalWarnings = Σ page.warnings`. -/
theorem scanResult_totals_eq_sums (url ts : String) (pages : List PageResult) (d : ℚ) :
    (domainScanResult url ts pages d).totalPassed = (pages.map PageResult.passed).sum ∧
    (domainScanResult url ts pages d).totalFailed = (pages.map PageResult.failed).sum ∧
    (domainScanResult url ts pages d).totalWarnings = (pages.map PageResult.warnings).sum := by
  refine ⟨?_, ?_, ?_⟩ <;> simp [domainScanResult, foldl_add_eq_sum]

/-- Claim C5: aggregating any permutation of a page sequence yields the
same `totalPassed`, `totalFailed` and `totalWarnings`; the summary is
order-independent. -/
theorem scanResult_totals_perm (u₁ t₁ u₂ t₂ : String) (d₁ d₂ : ℚ)
    (pages₁ pages₂ : List PageResult) (h : pages₁.Perm pages₂) :
    (domainScanResult u₁ t₁ pages₁ d₁).totalPassed =
        (domainScanResult u₂ t₂ pages₂ d₂).totalPassed ∧
    (domainScanResult u₁ t₁ pages₁ d₁).totalFailed =
        (domainScanResult u₂ t₂ pages₂ d₂).totalFailed ∧
    (domainScanResult u₁ t₁ pages₁ d₁).totalWarnings =
        (domainScanResult u₂ t₂ pages₂ d₂).totalWarnings := by
  refine ⟨?_, ?_, ?_⟩ <;>
    simp [domainScanResult, foldl_add_eq_sum,
      (h.map PageResult.passed).sum_eq, (h.map PageResult.failed).sum_eq,
      (h.map PageResult.warnings).sum_eq]

/-- Witness for claim C5 at a concrete two-page swap. -/
theorem scanResult_totals_perm_witness :
    ([examplePageA, examplePageB].Perm [examplePageB, examplePageA]) ∧
    ((domainScanResult "https://example.com" "t1" [examplePageA, examplePageB]
          (42 / 10)).totalPassed =
        (domainScanResult "https://example.com" "t2" [examplePageB, examplePageA]
          (42 / 10)).totalPassed ∧
      (domainScanResult "https://example.com" "t1" [examplePageA, examplePageB]
          (42 / 10)).totalFailed =
        (domainScanResult "https://example.com" "t2" [examplePageB, examplePageA]
          (42 / 10)).totalFailed ∧
      (domainScanResult "https://example.com" "t1" [examplePageA, examplePageB]
          (42 / 10)).totalWarnings =
        (domainScanResult "https://example.com" "t2" [examplePageB, examplePageA]
          (42 / 10)).totalWarnings) :=
  ⟨List.Perm.swap examplePageB examplePageA [],
   scanResult_totals_perm "https://example.com" "t1" "https://example.com" "t2"
     (42 / 10) (42 / 10) [examplePageA, examplePageB] [examplePageB, examplePageA]
     (List.Perm.swap examplePageB examplePageA [])⟩

/-- For positive totals the score computation of the code takes the `some`
branch and agrees with the specification's half-up-rounded percentage. -/
theorem complianceScoreOf_pos (p f : Nat) (h : 0 < p + f) :
    complianceScoreOf p f = some (specComplianceScore p f) := by
  have h0 : ((p : ℚ) + (f : ℚ)) ≠ 0 := by
    have h1 : ((p + f : ℕ) : ℚ) ≠ 0 := Nat.cast_ne_zero.mpr (Nat.pos_iff_ne_zero.mp h)
    push_cast at h1
    exact h1
  simp only [complianceScoreOf, jsDiv, if_neg h0, Option.map_some', mathRound,
    specComplianceScore, round_eq, Option.some.injEq]
  congr 1
  ring

/-- Claim C2 (amended): whenever the summed passed and failed counters are
strictly positive, the code's compliance-score formula evaluated in exact
rational arithmetic equals the specification's
`round(100 * totalPassed / (totalPassed + totalFailed))`, rounded half-up.
The program's binary64 evaluation of the same formula diverges from this at
half-integer percentages — at totals 23 passed and 17 failed it yields 57
where the half-up rounding of the exact 57.5 is 58 — so the unamended claim
is false of the program; the counterexample theorem exhibits this. -/
theorem complianceScore_eq_spec_round (url ts : String) (pages : List PageResult) (d : ℚ)
    (h : 0 < (pages.map PageResult.passed).sum + (pages.map PageResult.failed).sum) :
    (domainScanResult url ts pages d).complianceScore =
      some (specComplianceScore (pages.map PageResult.passed).sum
        (pages.map PageResult.failed).sum) := by
  have e : (domainScanResult url ts pages d).complianceScore =
      complianceScoreOf (pages.map PageResult.passed).sum
        (pages.map PageResult.failed).sum := by
    simp [domainScanResult, foldl_add_eq_sum]
  rw [e, complianceScoreOf_pos _ _ h]

/-- Witness for claim C2 at the concrete two pages of the fixture. -/
theorem complianceScore_eq_spec_round_witness :
    0 < (([examplePageA, examplePageB].map PageResult.passed).sum +
        ([examplePageA, examplePageB].map PageResult.failed).sum) ∧
    (domainScanResult "https://example.com" "2024-01-01T00:00:00.000Z"
        [examplePageA, examplePageB] (42 / 10)).complianceScore =
      some (specComplianceScore ([examplePageA, examplePageB].map PageResult.passed).sum
        ([examplePageA, examplePageB].map PageResult.failed).sum) :=
  ⟨by decide,
   complianceScore_eq_spec_round "https://example.com" "2024-01-01T00:00:00.000Z"
     [examplePageA, examplePageB] (42 / 10) (by decide)⟩

/-- Claim C1 (refuted by the code): at all-zero totals — here the empty
page list — the compliance-score computation divides zero by zero and the
aggregated `complianceScore` is `NaN` (modelled `none`); no fallback value
is substituted anywhere in the component. -/
theorem complianceScore_allZero_nan :
    (domainScanResult "https://example.com" "2024-01-01T00:00:00.000Z" [] 0).complianceScore =
      none := by
  simp [domainScanResult, complianceScoreOf, jsDiv]

/-- Claim C4: every `PageResult` the program produces — a page of the
randomised domain-scan generator for any templates and random draws, the
five hard-coded pages of the sibling copy's domain scan, and the hard-coded
single page — has `failed` equal to the number of its issues of kind error
and `warnings` equal to the number of its issues of kind warning. -/
theorem pageResult_counts_invariant (baseUrl : String) (template : PageTemplate)
    (r : PageRand) (u₁ u₂ : String) :
    pageCountsInvariant (mkMockPage baseUrl template r) ∧
    List.Forall pageCountsInvariant (part000MockPages u₁) ∧
    pageCountsInvariant (singlePageOf u₂) :=
  ⟨⟨rfl, rfl⟩,
   ⟨⟨rfl, rfl⟩, ⟨rfl, rfl⟩, ⟨rfl, rfl⟩, ⟨rfl, rfl⟩, ⟨rfl, rfl⟩⟩,
   ⟨rfl, rfl⟩⟩

/-- Claim C7: aggregating the two fixture pages with 45 passed, 1 failed
and 32 passed, 0 failed yields `totalPassed = 77`, `totalFailed = 1` and a
compliance score of `round(100 * 77 / 78) = 99`; the hard-coded single page
with 28 passed and 1 failed yields a compliance score of 97. -/
theorem spec_example_scores :
    (domainScanResult "https://example.com" "2024-01-01T00:00:00.000Z"
        ((part000MockPages "https://example.com").take 2) (42 / 10)).totalPassed = 77 ∧
    (domainScanResult "https://example.com" "2024-01-01T00:00:00.000Z"
        ((part000MockPages "https://example.com").take 2) (42 / 10)).totalFailed = 1 ∧
    (domainScanResult "https://example.com" "2024-01-01T00:00:00.000Z"
        ((part000MockPages "https://example.com").take 2) (42 / 10)).complianceScore =
      some (specComplianceScore 77 1) ∧
    specComplianceScore 77 1 = 99 ∧
    (singleScanResult "https://example.com" "2024-01-01T00:00:00.000Z").complianceScore =
      some 97 := by
  refine ⟨?_, ?_, ?_, ?_, ?_⟩
  · norm_num [domainScanResult, part000MockPages, List.take]
  · norm_num [domainScanResult, part000MockPages, List.take]
  · have e : (domainScanResult "https://example.com" "2024-01-01T00:00:00.000Z"
        ((part000MockPages "https://example.com").take 2) (42 / 10)).complianceScore =
          complianceScoreOf 77 1 := by
      norm_num [domainScanResult, part000MockPages, List.take]
    rw [e, complianceScoreOf_pos 77 1 (by norm_num)]
  · norm_num [specComplianceScore, round_eq]
  · norm_num [singleScanResult, singlePageOf, jsDiv, mathRound]

/-- Claim C8: the per-page score of the report table is the identical
formula as the site-level compliance-score computation, applied to the
page's own counters. -/
theorem pageScore_eq_site_formula (page : PageResult) :
    pageScore page = complianceScoreOf page.passed page.failed := rfl

/-- Claim C6: the remediation lookup is total and equals the finite
enumerated table with its default: for every issue it returns, without any
error case, that issue's code's entry of `knownFixes` when one exists and
`fallbackFix` otherwise.  Totality is inherent: `getFixExample` is a total
function of Lean. -/
theorem getFixExample_eq_table (issue : AccessibilityIssue) :
    getFixExample issue = (List.lookup issue.code knownFixes).getD fallbackFix := by
  unfold getFixExample
  split_ifs with h1 h2 h3 h4 h5
  · rw [h1]; rfl
  · rw [h2]; rfl
  · rw [h3]; rfl
  · rw [h4]; rfl
  · rw [h5]; rfl
  · have e1 : (issue.code == "WCAG2AA.Principle1.Guideline1_1.1_1_1.H37") = false :=
      beq_eq_false_iff_ne.mpr h1
    have e2 : (issue.code == "WCAG2AA.Principle2.Guideline2_4.2_4_2.H25.1.NoTitleEl") = false :=
      beq_eq_false_iff_ne.mpr h2
    have e3 : (issue.code == "WCAG2AA.Principle1.Guideline1_3.1_3_1.H43.IncorrectAttr") = false :=
      beq_eq_false_iff_ne.mpr h3
    have e4 : (issue.code == "WCAG2AA.Principle4.Guideline4_1.4_1_2.H91.Button.Name") = false :=
      beq_eq_false_iff_ne.mpr h4
    have e5 : (issue.code == "WCAG2AA.Principle1.Guideline1_4.1_4_3.G18.Fail") = false :=
      beq_eq_false_iff_ne.mpr h5
    simp [knownFixes, fallbackFix, List.lookup, e1, e2, e3, e4, e5]

/-- Claim C10: the remediation lookup depends only on the `code` field of
its argument; the severity, message, selector and context fields cannot
influence the returned string. -/
theorem getFixExample_depends_only_on_code (i₁ i₂ : AccessibilityIssue)
    (h : i₁.code = i₂.code) : getFixExample i₁ = getFixExample i₂ := by
  simp only [getFixExample, h]

/-- Witness for claim C10 at two concrete issues equal only in their code. -/
theorem getFixExample_depends_only_on_code_witness :
    (AccessibilityIssue.mk IssueType.error "X.Unknown.Rule" "m1" "s1" "c1").code =
      (AccessibilityIssue.mk IssueType.warning "X.Unknown.Rule" "m2" "s2" "c2").code ∧
    getFixExample (AccessibilityIssue.mk IssueType.error "X.Unknown.Rule" "m1" "s1" "c1") =
      getFixExample (AccessibilityIssue.mk IssueType.warning "X.Unknown.Rule" "m2" "s2" "c2") :=
  ⟨rfl,
   getFixExample_depends_only_on_code
     (AccessibilityIssue.mk IssueType.error "X.Unknown.Rule" "m1" "s1" "c1")
     (AccessibilityIssue.mk IssueType.warning "X.Unknown.Rule" "m2" "s2" "c2") rfl⟩

/-- Claim C9: an empty url, or one the browser's URL parser rejects, makes
`handleScan` return before any scan is requested: the state is unchanged
(the scanning flag is not set and no `ScanResult` is produced), the only
emitted effect is a single validation toast, and nothing is scheduled, so
there is no retry. -/
theorem handleScan_rejects_invalid_url (v : String → Bool) (s : UIState)
    (h : s.url = "" ∨ v s.url = false) :
    (handleScan v s).1 = s ∧
    ∃ title description, (handleScan v s).2 = [ScanEffect.toast title description] := by
  by_cases h0 : s.url = ""
  · exact ⟨by simp [handleScan, h0],
      ⟨"URL Required", "Please enter a URL to scan", by simp [handleScan, h0]⟩⟩
  · have hv : v s.url = false := h.resolve_left h0
    exact ⟨by simp [handleScan, h0, hv],
      ⟨"Invalid URL", "Please enter a valid URL (include http:// or https://)",
        by simp [handleScan, h0, hv]⟩⟩

/-- Witness for claim C9 at a concrete state whose url every validator
rejects. -/
theorem handleScan_rejects_invalid_url_witness :
    ((UIState.mk "not a url" false none false).url = "" ∨
      (fun _ : String => false) (UIState.mk "not a url" false none false).url = false) ∧
    ((handleScan (fun _ : String => false) (UIState.mk "not a url" false none false)).1 =
        UIState.mk "not a url" false none false ∧
      ∃ title description,
        (handleScan (fun _ : String => false) (UIState.mk "not a url" false none false)).2 =
          [ScanEffect.toast title description]) :=
  ⟨Or.inr rfl,
   handleScan_rejects_invalid_url (fun _ : String => false)
     (UIState.mk "not a url" false none false) (Or.inr rfl)⟩

/-- The binary64 rounding evaluated through its exponent: whenever
`2 ^ e ≤ q < 2 ^ (e + 1)`, the rounded value is the even-rounded 53-bit
mantissa scaled back by `2 ^ (e - 52)`. -/
theorem fp64round_eq (q : ℚ) (e : ℤ) (h1 : (2 : ℚ) ^ e ≤ q) (h2 : q < (2 : ℚ) ^ (e + 1)) :
    fp64round q = (roundEven (q * 2 ^ (52 - e)) : ℚ) * 2 ^ (e - 52) := by
  have hq : 0 < q := lt_of_lt_of_le (by positivity) h1
  have hb : ((2 : ℕ) : ℚ) = (2 : ℚ) := by norm_num
  have hle : e ≤ Int.log 2 q := by
    rw [← Int.zpow_le_iff_le_log (by norm_num) hq, hb]
    exact h1
  have hlt : Int.log 2 q < e + 1 := by
    rw [← Int.lt_zpow_iff_log_lt (by norm_num) hq, hb]
    exact h2
  have hlog : Int.log 2 q = e := by omega
  rw [fp64round, hlog]

/-- Claim C2 (counterexample): under the program's binary64 arithmetic the
single page with 23 passed and 17 failed checks aggregates to the
compliance score 57 — `(23 / 40) * 100` evaluates to the double just below
57.5, which `Math.round` takes down — while the half-up rounding of the
exact percentage, as the claim states it, is 58. -/
theorem complianceScore_fp_counterexample :
    (domainScanResultFP "https://example.com" "2024-01-01T00:00:00.000Z" [examplePageC]
        (42 / 10)).complianceScore = some 57 ∧
    specComplianceScore (([examplePageC].map PageResult.passed).sum)
      (([examplePageC].map PageResult.failed).sum) = 58 := by
  constructor
  · have ht1 : fp64round ((23 : ℚ) / 40) = 5179139571476070 / 2 ^ 53 := by
      rw [fp64round_eq ((23 : ℚ) / 40) (-1) (by norm_num) (by norm_num)]
      norm_num [roundEven]
    have ht2 : fp64round ((5179139571476070 / 2 ^ 53 : ℚ) * 100) =
        8092405580431359 / 2 ^ 47 := by
      rw [fp64round_eq ((5179139571476070 / 2 ^ 53 : ℚ) * 100) 5 (by norm_num) (by norm_num)]
      norm_num [roundEven]
    have e0 : (domainScanResultFP "https://example.com" "2024-01-01T00:00:00.000Z"
        [examplePageC] (42 / 10)).complianceScore = complianceScoreFP 23 17 := by
      norm_num [domainScanResultFP, examplePageC]
    have e1 : complianceScoreFP 23 17 =
        some (mathRound (fp64round (fp64round ((23 : ℚ) / 40) * 100))) := by
      norm_num [complianceScoreFP]
    rw [e0, e1, ht1, ht2]
    norm_num [mathRound]
  · norm_num [specComplianceScore, round_eq, examplePageC]
